import Mathlib

/-!
Shallow embedding of the cart subsystem of the Kiro-Workshop ecommerce demo.

Source files embedded:
  * backend/models/database.js — the `cart` routes (GET /, POST /, PUT /:id,
    DELETE /:id) and the seeded `products` table.
  * frontend/src/pages/Cart.js — the client-side total accumulator.

Modelling conventions:
  * SQLite rows become Lean structures; the `cart` table is a list of rows in
    rowid (insertion) order together with the next AUTOINCREMENT id.
  * SQL `INTEGER` quantities become `Int` (requests may carry any integer; the
    routes perform no validation).  Row ids are `Nat` (AUTOINCREMENT starts
    at 1).
  * `price REAL` is modelled as `ℚ`; claims about binary floating-point
    behaviour are outside this embedding.
  * Each route handler is a pure function from the store (and request data) to
    the new store plus the JSON response it sends on its non-`err` path; the
    sqlite driver's `err` paths (I/O failure) are outside the model.
-/

/-- A row of the `products` table (database.js, CREATE TABLE products). -/
structure Product where
  id : Nat
  name : String
  emoji : String
  price : ℚ
  description : String
  category : String
deriving Repr, DecidableEq

/-- A row of the `cart` table (database.js, CREATE TABLE cart).  The declared
FOREIGN KEY on `product_id` is never enforced: the backend opens the database
without `PRAGMA foreign_keys = ON`, so sqlite ignores the constraint. -/
structure CartLine where
  id : Nat
  product_id : Nat
  quantity : Int
deriving Repr, DecidableEq

/-- The `cart` table: rows in rowid order plus the next AUTOINCREMENT id. -/
structure CartStore where
  lines : List CartLine
  nextId : Nat
deriving Repr, DecidableEq

/-- A freshly created `cart` table (AUTOINCREMENT ids start at 1). -/
def emptyCart : CartStore := { lines := [], nextId := 1 }

/-- `SELECT * FROM cart WHERE product_id = ?` via `db.get`: the first matching
row in rowid order, if any (database.js line 99). -/
def findLine (s : CartStore) (pid : Nat) : Option CartLine :=
  s.lines.find? (fun c => c.product_id = pid)

/-- Per-row effect of `UPDATE cart SET quantity = quantity + ? WHERE
product_id = ?` (database.js line 101). -/
def bumpQty (pid : Nat) (q : Int) (c : CartLine) : CartLine :=
  if c.product_id = pid then { c with quantity := c.quantity + q } else c

/-- Per-row effect of `UPDATE cart SET quantity = ? WHERE id = ?`
(database.js line 116). -/
def setQty (lid : Nat) (q : Int) (c : CartLine) : CartLine :=
  if c.id = lid then { c with quantity := q } else c

/-- POST /cart (database.js lines 97–112).  Reads `product_id` and `quantity`
from the body with no validation of either.  If a row for `product_id` exists,
runs `UPDATE cart SET quantity = quantity + ? WHERE product_id = ?` and
responds with the found row's id and message `Cart updated`; otherwise runs
`INSERT INTO cart (product_id, quantity) VALUES (?, ?)` and responds with the
new rowid and message `Added to cart`.  Result: (new store, response id,
response message). -/
def cartAdd (s : CartStore) (pid : Nat) (q : Int) : CartStore × Nat × String :=
  match findLine s pid with
  | some row =>
      ({ s with lines := s.lines.map (bumpQty pid q) }, row.id, "Cart updated")
  | none =>
      ({ lines := s.lines ++ [{ id := s.nextId, product_id := pid, quantity := q }],
         nextId := s.nextId + 1 },
       s.nextId, "Added to cart")

/-- The read phase of POST /cart: the `db.get` of database.js line 99, executed
when this request reaches the head of the sqlite work queue. -/
def addRead (s : CartStore) (pid : Nat) : Option CartLine :=
  findLine s pid

/-- The write phase of POST /cart: the `db.run` issued inside the `db.get`
callback (database.js lines 100–110), parameterised by the row the read phase
observed.  Under concurrent requests the observation may be stale: another
request's write can be queued between this request's read and its write. -/
def addWrite (s : CartStore) (pid : Nat) (q : Int) : Option CartLine → CartStore
  | some _ => { s with lines := s.lines.map (bumpQty pid q) }
  | none =>
      { lines := s.lines ++ [{ id := s.nextId, product_id := pid, quantity := q }],
        nextId := s.nextId + 1 }

/-- PUT /cart/:id (database.js lines 114–120): `UPDATE cart SET quantity = ?
WHERE id = ?`, then the response message.  No validation of `quantity`, no
check that the row exists: updating zero rows still answers
`Quantity updated`. -/
def cartSet (s : CartStore) (lid : Nat) (q : Int) : CartStore × String :=
  ({ s with lines := s.lines.map (setQty lid q) }, "Quantity updated")

/-- DELETE /cart/:id (database.js lines 122–127): `DELETE FROM cart WHERE
id = ?`, then the response message, row present or not. -/
def cartRemove (s : CartStore) (lid : Nat) : CartStore × String :=
  ({ s with lines := s.lines.filter (fun c => c.id ≠ lid) }, "Item removed")

/-- One row of the GET /cart response: `c.id, c.quantity, p.*` (the joined
product's own `id` overwrites the line id in the spread, but the route selects
`c.id` first; we keep the line id and the product fields the frontend uses). -/
structure CartViewRow where
  id : Nat
  quantity : Int
  name : String
  emoji : String
  price : ℚ
deriving Repr, DecidableEq

/-- The response rows one cart row contributes to the GET /cart join: one per
catalog product matching its `product_id` — none when the row is orphaned. -/
def viewRows (catalog : List Product) (c : CartLine) : List CartViewRow :=
  (catalog.filter (fun p => p.id = c.product_id)).map (fun p =>
    { id := c.id, quantity := c.quantity, name := p.name,
      emoji := p.emoji, price := p.price })

/-- GET /cart (database.js lines 86–95): `SELECT c.id, c.quantity, p.* FROM
cart c JOIN products p ON c.product_id = p.id` — an INNER join, one output row
per (cart row, matching product) pair, cart rows scanned in rowid order.  A
cart row whose `product_id` matches no product contributes nothing. -/
def cartView (s : CartStore) (catalog : List Product) : List CartViewRow :=
  s.lines.flatMap (viewRows catalog)

/-- Cart.js line 33: `cartItems.reduce((sum, item) => sum + (item.price *
item.quantity), 0)`.  The JS number arithmetic is modelled over ℚ; claims
about floating-point rounding are outside this embedding. -/
def cartTotal (items : List CartViewRow) : ℚ :=
  items.foldl (fun sum item => sum + item.price * (item.quantity : ℚ)) 0

/-- The 20 products seeded by database.js (lines 31–52), with the AUTOINCREMENT
ids 1–20 they receive on first launch. -/
def seedProducts : List Product :=
  [ { id := 1, name := "Laptop Pro", emoji := "💻", price := 1299.99,
      description := "High-performance laptop", category := "Electronics" },
    { id := 2, name := "Smartphone X", emoji := "📱", price := 899.99,
      description := "Latest smartphone", category := "Electronics" },
    { id := 3, name := "Wireless Headphones", emoji := "🎧", price := 199.99,
      description := "Noise-canceling headphones", category := "Audio" },
    { id := 4, name := "Smart Watch", emoji := "⌚", price := 349.99,
      description := "Fitness tracking watch", category := "Wearables" },
    { id := 5, name := "Camera DSLR", emoji := "📷", price := 1499.99,
      description := "Professional camera", category := "Photography" },
    { id := 6, name := "Gaming Console", emoji := "🎮", price := 499.99,
      description := "Next-gen gaming", category := "Gaming" },
    { id := 7, name := "Tablet Plus", emoji := "📱", price := 599.99,
      description := "Portable tablet", category := "Electronics" },
    { id := 8, name := "Bluetooth Speaker", emoji := "🔊", price := 79.99,
      description := "Portable speaker", category := "Audio" },
    { id := 9, name := "Keyboard Mechanical", emoji := "⌨️", price := 149.99,
      description := "RGB mechanical keyboard", category := "Accessories" },
    { id := 10, name := "Mouse Wireless", emoji := "🖱️", price := 49.99,
      description := "Ergonomic mouse", category := "Accessories" },
    { id := 11, name := "Monitor 4K", emoji := "🖥️", price := 699.99,
      description := "27-inch 4K display", category := "Electronics" },
    { id := 12, name := "Webcam HD", emoji := "📹", price := 89.99,
      description := "1080p webcam", category := "Accessories" },
    { id := 13, name := "External SSD", emoji := "💾", price := 179.99,
      description := "1TB storage", category := "Storage" },
    { id := 14, name := "Power Bank", emoji := "🔋", price := 39.99,
      description := "20000mAh capacity", category := "Accessories" },
    { id := 15, name := "USB Hub", emoji := "🔌", price := 29.99,
      description := "7-port USB hub", category := "Accessories" },
    { id := 16, name := "Desk Lamp", emoji := "💡", price := 44.99,
      description := "LED desk lamp", category := "Office" },
    { id := 17, name := "Office Chair", emoji := "🪑", price := 299.99,
      description := "Ergonomic chair", category := "Furniture" },
    { id := 18, name := "Backpack Tech", emoji := "🎒", price := 79.99,
      description := "Laptop backpack", category := "Accessories" },
    { id := 19, name := "Water Bottle", emoji := "💧", price := 24.99,
      description := "Insulated bottle", category := "Lifestyle" },
    { id := 20, name := "Coffee Maker", emoji := "☕", price := 129.99,
      description := "Programmable coffee maker", category := "Kitchen" } ]

/-- A client-issued cart mutation, as received by the three mutating routes. -/
inductive CartOp where
  | add (pid : Nat) (q : Int)
  | set (lid : Nat) (q : Int)
  | remove (lid : Nat)
deriving Repr, DecidableEq

/-- The store effect of one request (responses dropped). -/
def applyOp (s : CartStore) : CartOp → CartStore
  | CartOp.add pid q => (cartAdd s pid q).1
  | CartOp.set lid q => (cartSet s lid q).1
  | CartOp.remove lid => (cartRemove s lid).1

/-- Effect of a sequence of requests handled one after another. -/
def runOps (s : CartStore) (ops : List CartOp) : CartStore :=
  ops.foldl applyOp s

/-- Total quantity a list of cart rows holds for product `p` (the sum over all
rows for `p`; in states with at most one row per product, the quantity of that
row, or 0 when absent). -/
def lineQtys (l : List CartLine) (p : Nat) : Int :=
  (l.map (fun c => if c.product_id = p then c.quantity else 0)).sum

/-- Total quantity the store holds for product `p`. -/
def lineQty (s : CartStore) (p : Nat) : Int :=
  lineQtys s.lines p

/-- At most one cart row per distinct product. -/
def DistinctProducts (s : CartStore) : Prop :=
  s.lines.Pairwise (fun a b => a.product_id ≠ b.product_id)

/-- Every row id already issued is below the next AUTOINCREMENT id. -/
def FreshIds (s : CartStore) : Prop :=
  ∀ c ∈ s.lines, c.id < s.nextId

/-- The operation, applied to store `s`, does not target a row of product `p`:
adds never count (C8 restricts only SetQuantity/Remove), while a set or remove
counts as touching `p` exactly when the row id it addresses belongs to `p` in
the pre-state. -/
def AvoidsProduct (p : Nat) (s : CartStore) : CartOp → Prop
  | CartOp.add _ _ => True
  | CartOp.set lid _ => ∀ c ∈ s.lines, c.id = lid → c.product_id ≠ p
  | CartOp.remove lid => ∀ c ∈ s.lines, c.id = lid → c.product_id ≠ p

/-- Along the run starting at `s`, no SetQuantity/Remove operation touches a
row of product `p` (each operation judged against its own pre-state). -/
def SetRemoveAvoid (p : Nat) : CartStore → List CartOp → Prop
  | _, [] => True
  | s, op :: rest => AvoidsProduct p s op ∧ SetRemoveAvoid p (applyOp s op) rest

/-- Sum of the increments the sequence applies to product `p` via
AddOrIncrement. -/
def addsTo (p : Nat) : List CartOp → Int
  | [] => 0
  | CartOp.add pid q :: rest => (if pid = p then q else 0) + addsTo p rest
  | CartOp.set _ _ :: rest => addsTo p rest
  | CartOp.remove _ :: rest => addsTo p rest

/-- The operation is an AddOrIncrement. -/
def IsAdd : CartOp → Prop
  | CartOp.add _ _ => True
  | _ => False

example : runOps emptyCart [CartOp.add 1 2, CartOp.add 1 3] =
    { lines := [{ id := 1, product_id := 1, quantity := 5 }], nextId := 2 } := by
  decide

lemma bumpQty_product_id (pid : Nat) (q : Int) (c : CartLine) :
    (bumpQty pid q c).product_id = c.product_id := by
  unfold bumpQty; split <;> rfl

lemma bumpQty_id (pid : Nat) (q : Int) (c : CartLine) :
    (bumpQty pid q c).id = c.id := by
  unfold bumpQty; split <;> rfl

lemma setQty_product_id (lid : Nat) (q : Int) (c : CartLine) :
    (setQty lid q c).product_id = c.product_id := by
  unfold setQty; split <;> rfl

lemma setQty_id (lid : Nat) (q : Int) (c : CartLine) :
    (setQty lid q c).id = c.id := by
  unfold setQty; split <;> rfl

lemma cartAdd_fst_eq_phases (s : CartStore) (pid : Nat) (q : Int) :
    (cartAdd s pid q).1 = addWrite s pid q (addRead s pid) := by
  unfold cartAdd addWrite addRead
  cases findLine s pid <;> rfl

lemma lineQtys_nil (p : Nat) : lineQtys [] p = 0 := rfl

lemma lineQtys_cons (c : CartLine) (l : List CartLine) (p : Nat) :
    lineQtys (c :: l) p = (if c.product_id = p then c.quantity else 0) + lineQtys l p := by
  simp [lineQtys]

lemma lineQtys_append (l₁ l₂ : List CartLine) (p : Nat) :
    lineQtys (l₁ ++ l₂) p = lineQtys l₁ p + lineQtys l₂ p := by
  simp [lineQtys]

lemma lineQtys_eq_zero (l : List CartLine) (p : Nat)
    (h : ∀ c ∈ l, c.product_id ≠ p) : lineQtys l p = 0 := by
  induction l with
  | nil => rfl
  | cons a t ih =>
      rw [lineQtys_cons, if_neg (h a (List.mem_cons_self a t)),
        ih (fun c hc => h c (List.mem_cons_of_mem a hc))]
      rfl


lemma lineQtys_bump_self (l : List CartLine) (pid : Nat) (q : Int)
    (hp : l.Pairwise (fun a b => a.product_id ≠ b.product_id))
    (hex : ∃ c, c ∈ l ∧ c.product_id = pid) :
    lineQtys (l.map (bumpQty pid q)) pid = lineQtys l pid + q := by
  induction l with
  | nil => rcases hex with ⟨c, hc, _⟩; cases hc
  | cons a t ih =>
      rcases List.pairwise_cons.mp hp with ⟨ha, ht⟩
      by_cases hap : a.product_id = pid
      · have htail : ∀ c ∈ t, c.product_id ≠ pid := by
          intro c hc hcp
          exact (ha c hc) (hap.trans hcp.symm)
        have h1 : lineQtys t pid = 0 := lineQtys_eq_zero t pid htail
        have h2 : lineQtys (t.map (bumpQty pid q)) pid = 0 := by
          apply lineQtys_eq_zero
          intro c hc
          rcases List.mem_map.mp hc with ⟨d, hd, rfl⟩
          rw [bumpQty_product_id]
          exact htail d hd
        rw [List.map_cons, lineQtys_cons, lineQtys_cons, h1, h2]
        simp [bumpQty, hap]
      · have hfix : bumpQty pid q a = a := by
          simp [bumpQty, hap]
        have hex' : ∃ c, c ∈ t ∧ c.product_id = pid := by
          rcases hex with ⟨c, hc, hcp⟩
          rcases List.mem_cons.mp hc with h | h
          · exact absurd (h ▸ hcp) hap
          · exact ⟨c, h, hcp⟩
        rw [List.map_cons, hfix, lineQtys_cons, lineQtys_cons, ih ht hex']
        ring

lemma lineQtys_bump_other (l : List CartLine) (pid p : Nat) (q : Int)
    (hne : pid ≠ p) :
    lineQtys (l.map (bumpQty pid q)) p = lineQtys l p := by
  induction l with
  | nil => rfl
  | cons a t ih =>
      rw [List.map_cons, lineQtys_cons, lineQtys_cons, ih]
      congr 1
      rw [bumpQty_product_id]
      by_cases hap : a.product_id = p
      · have hne3 : ¬ p = pid := fun h => hne h.symm
        simp [bumpQty, hap, hne3]
      · simp [hap]

lemma lineQtys_set_avoid (l : List CartLine) (lid : Nat) (q : Int) (p : Nat)
    (h : ∀ c ∈ l, c.id = lid → c.product_id ≠ p) :
    lineQtys (l.map (setQty lid q)) p = lineQtys l p := by
  induction l with
  | nil => rfl
  | cons a t ih =>
      rw [List.map_cons, lineQtys_cons, lineQtys_cons,
        ih (fun c hc => h c (List.mem_cons_of_mem a hc))]
      congr 1
      by_cases hid : a.id = lid
      · have hap : a.product_id ≠ p := h a (List.mem_cons_self a t) hid
        simp [setQty, hid, hap]
      · simp [setQty, hid]

lemma lineQtys_filter_avoid (l : List CartLine) (lid : Nat) (p : Nat)
    (h : ∀ c ∈ l, c.id = lid → c.product_id ≠ p) :
    lineQtys (l.filter (fun c => c.id ≠ lid)) p = lineQtys l p := by
  induction l with
  | nil => rfl
  | cons a t ih =>
      have ih' := ih (fun c hc => h c (List.mem_cons_of_mem a hc))
      simp only [decide_not] at ih'
      by_cases hid : a.id = lid
      · have hap : a.product_id ≠ p := h a (List.mem_cons_self a t) hid
        simp [List.filter_cons, hid, lineQtys_cons, hap, ih']
      · simp [List.filter_cons, hid, lineQtys_cons, ih']

lemma findLine_eq_none_iff (s : CartStore) (pid : Nat) :
    findLine s pid = none ↔ ∀ c ∈ s.lines, c.product_id ≠ pid := by
  simp [findLine, List.find?_eq_none]

lemma findLine_some_mem (s : CartStore) (pid : Nat) (row : CartLine)
    (h : findLine s pid = some row) : row ∈ s.lines ∧ row.product_id = pid := by
  refine ⟨List.mem_of_find?_eq_some h, ?_⟩
  have := List.find?_some h
  simpa using this

lemma distinct_cartAdd (s : CartStore) (pid : Nat) (q : Int)
    (h : DistinctProducts s) : DistinctProducts (cartAdd s pid q).1 := by
  unfold DistinctProducts at h ⊢
  cases hf : findLine s pid with
  | some row =>
      simp only [cartAdd, hf]
      rw [List.pairwise_map]
      exact h.imp (fun hab => by simpa [bumpQty_product_id] using hab)
  | none =>
      simp only [cartAdd, hf]
      rw [List.pairwise_append]
      refine ⟨h, List.pairwise_singleton _ _, ?_⟩
      intro a ha b hb
      rcases List.mem_singleton.mp hb with rfl
      have := (findLine_eq_none_iff s pid).mp hf a ha
      simpa using this

lemma distinct_cartSet (s : CartStore) (lid : Nat) (q : Int)
    (h : DistinctProducts s) : DistinctProducts (cartSet s lid q).1 := by
  unfold DistinctProducts at h ⊢
  simp only [cartSet]
  rw [List.pairwise_map]
  exact h.imp (fun hab => by simpa [setQty_product_id] using hab)

lemma distinct_cartRemove (s : CartStore) (lid : Nat)
    (h : DistinctProducts s) : DistinctProducts (cartRemove s lid).1 := by
  unfold DistinctProducts at h ⊢
  simp only [cartRemove]
  exact List.Pairwise.sublist (List.filter_sublist _) h

lemma distinct_applyOp (s : CartStore) (op : CartOp)
    (h : DistinctProducts s) : DistinctProducts (applyOp s op) := by
  cases op with
  | add pid q => exact distinct_cartAdd s pid q h
  | set lid q => exact distinct_cartSet s lid q h
  | remove lid => exact distinct_cartRemove s lid h

lemma distinct_runOps (ops : List CartOp) (s : CartStore)
    (h : DistinctProducts s) : DistinctProducts (runOps s ops) := by
  induction ops generalizing s with
  | nil => exact h
  | cons op rest ih => exact ih (applyOp s op) (distinct_applyOp s op h)

lemma lineQty_cartAdd (s : CartStore) (pid p : Nat) (q : Int)
    (hd : DistinctProducts s) :
    lineQty (cartAdd s pid q).1 p = lineQty s p + (if pid = p then q else 0) := by
  cases hf : findLine s pid with
  | some row =>
      simp only [cartAdd, hf, lineQty]
      by_cases hp : pid = p
      · subst hp
        rcases findLine_some_mem s pid row hf with ⟨hmem, hrow⟩
        rw [lineQtys_bump_self s.lines pid q hd ⟨row, hmem, hrow⟩]
        simp
      · rw [lineQtys_bump_other s.lines pid p q hp]
        simp [hp]
  | none =>
      simp only [cartAdd, hf, lineQty]
      rw [lineQtys_append]
      by_cases hp : pid = p <;> simp [lineQtys_cons, lineQtys_nil, hp]

lemma lineQty_cartSet (s : CartStore) (lid : Nat) (q : Int) (p : Nat)
    (h : ∀ c ∈ s.lines, c.id = lid → c.product_id ≠ p) :
    lineQty (cartSet s lid q).1 p = lineQty s p := by
  simp only [cartSet, lineQty]
  exact lineQtys_set_avoid s.lines lid q p h

lemma lineQty_cartRemove (s : CartStore) (lid : Nat) (p : Nat)
    (h : ∀ c ∈ s.lines, c.id = lid → c.product_id ≠ p) :
    lineQty (cartRemove s lid).1 p = lineQty s p := by
  simp only [cartRemove, lineQty]
  exact lineQtys_filter_avoid s.lines lid p h

lemma lineQty_runOps (p : Nat) (ops : List CartOp) (s : CartStore)
    (hd : DistinctProducts s) (hav : SetRemoveAvoid p s ops) :
    lineQty (runOps s ops) p = lineQty s p + addsTo p ops := by
  induction ops generalizing s with
  | nil => simp [runOps, addsTo]
  | cons op rest ih =>
      have h1 := hav.1
      have h2 := hav.2
      have hd' := distinct_applyOp s op hd
      have hrest := ih (applyOp s op) hd' h2
      show lineQty (runOps (applyOp s op) rest) p = lineQty s p + addsTo p (op :: rest)
      rw [hrest]
      cases op with
      | add pid q =>
          show lineQty (cartAdd s pid q).1 p + addsTo p rest = _
          rw [lineQty_cartAdd s pid p q hd]
          simp [addsTo]
          ring
      | set lid q =>
          show lineQty (cartSet s lid q).1 p + addsTo p rest = _
          rw [lineQty_cartSet s lid q p h1]
          simp [addsTo]
      | remove lid =>
          show lineQty (cartRemove s lid).1 p + addsTo p rest = _
          rw [lineQty_cartRemove s lid p h1]
          simp [addsTo]

lemma distinct_emptyCart : DistinctProducts emptyCart :=
  List.Pairwise.nil

lemma count_le_one_of_pairwise (l : List CartLine)
    (hp : l.Pairwise (fun a b => a.product_id ≠ b.product_id)) (pid : Nat) :
    (l.filter (fun c => c.product_id = pid)).length ≤ 1 := by
  induction l with
  | nil => simp
  | cons a t ih =>
      rcases List.pairwise_cons.mp hp with ⟨ha, ht⟩
      by_cases h : a.product_id = pid
      · have hnone : t.filter (fun c => c.product_id = pid) = [] := by
          apply List.filter_eq_nil_iff.mpr
          intro c hc
          simp only [decide_eq_true_eq]
          intro hcp
          exact (ha c hc) (h.trans hcp.symm)
        simp [List.filter_cons, h, hnone]
      · simp [List.filter_cons, h]
        exact ih ht

lemma setRemoveAvoid_of_adds (p : Nat) (ops : List CartOp) (s : CartStore)
    (hadds : ∀ op ∈ ops, IsAdd op) : SetRemoveAvoid p s ops := by
  induction ops generalizing s with
  | nil => trivial
  | cons op rest ih =>
      refine ⟨?_, ih (applyOp s op) (fun o ho => hadds o (List.mem_cons_of_mem _ ho))⟩
      have hop := hadds op (List.mem_cons_self _ _)
      cases op with
      | add pid q => trivial
      | set lid q => exact hop.elim
      | remove lid => exact hop.elim

lemma setQty_idem (lid : Nat) (q : Int) (c : CartLine) :
    setQty lid q (setQty lid q c) = setQty lid q c := by
  unfold setQty
  by_cases h : c.id = lid <;> simp [h]

lemma viewRows_eq_nil (cat : List Product) (c : CartLine)
    (horph : ∀ p ∈ cat, p.id ≠ c.product_id) : viewRows cat c = [] := by
  unfold viewRows
  rw [List.filter_eq_nil_iff.mpr]
  · rfl
  · intro p hp
    simp only [decide_eq_true_eq]
    exact horph p hp

lemma viewRows_id (cat : List Product) (c : CartLine) (r : CartViewRow)
    (hr : r ∈ viewRows cat c) : r.id = c.id := by
  unfold viewRows at hr
  rcases List.mem_map.mp hr with ⟨p, _, rfl⟩
  rfl

lemma viewRows_quantity (cat : List Product) (c : CartLine) (r : CartViewRow)
    (hr : r ∈ viewRows cat c) : r.quantity = c.quantity := by
  unfold viewRows at hr
  rcases List.mem_map.mp hr with ⟨p, _, rfl⟩
  rfl

lemma viewRows_ne_nil_match (cat : List Product) (c : CartLine)
    (h : viewRows cat c ≠ []) : ∃ p ∈ cat, p.id = c.product_id := by
  by_contra hcon
  push_neg at hcon
  exact h (viewRows_eq_nil cat c hcon)

lemma cartView_filter_orphans (s : CartStore) (cat : List Product) :
    cartView s cat =
      cartView
        { lines := s.lines.filter (fun l => cat.any (fun p => p.id = l.product_id)),
          nextId := s.nextId } cat := by
  unfold cartView
  simp only
  induction s.lines with
  | nil => rfl
  | cons a t ih =>
      by_cases h : cat.any (fun p => p.id = a.product_id) = true
      · simp [List.filter_cons, h, List.flatMap_cons, ih]
      · have horph : ∀ p ∈ cat, p.id ≠ a.product_id := by
          intro p hp
          have := (List.any_eq_false).mp (Bool.eq_false_iff.mpr h) p hp
          simpa using this
        simp [List.filter_cons, h, List.flatMap_cons, ih,
          viewRows_eq_nil cat a horph]

/-- C1: AddOrIncrement (POST /cart) consolidates duplicate additions.  On a
store `s` with at most one row per product where a CartLine for `pid` exists
(`hfound`), the call keeps the number of lines unchanged, turns the found row
into one with quantity current + q, moves the product's held quantity from
current to current + q, and reports the update message.  On a store `t` with
no line for `pid` (`hnone`) it appends exactly one new CartLine with quantity
`q` under the freshly assigned AUTOINCREMENT id (an id no existing line
carries, by `hfresh`).  In particular, from the empty cart, adding product
`pid` with qty 2 and then `pid` with qty 3 leaves exactly one line for `pid`,
with quantity 5. -/
theorem C1_addOrIncrement_consolidates (s t : CartStore) (pid : Nat) (q : Int)
    (row : CartLine) (hd : DistinctProducts s) (hfound : findLine s pid = some row)
    (hnone : findLine t pid = none) (hfresh : FreshIds t) :
    ((cartAdd s pid q).1.lines.length = s.lines.length ∧
      { row with quantity := row.quantity + q } ∈ (cartAdd s pid q).1.lines ∧
      lineQty (cartAdd s pid q).1 pid = lineQty s pid + q ∧
      (cartAdd s pid q).2.2 = "Cart updated") ∧
    ((cartAdd t pid q).1.lines =
        t.lines ++ [{ id := t.nextId, product_id := pid, quantity := q }] ∧
      (∀ c ∈ t.lines, c.id ≠ t.nextId) ∧
      (cartAdd t pid q).2.2 = "Added to cart") ∧
    (runOps emptyCart [CartOp.add pid 2, CartOp.add pid 3]).lines =
      [{ id := 1, product_id := pid, quantity := 5 }] := by
  rcases findLine_some_mem s pid row hfound with ⟨hmem, hrow⟩
  refine ⟨⟨?_, ?_, ?_, ?_⟩, ⟨?_, ?_, ?_⟩, ?_⟩
  · simp [cartAdd, hfound]
  · simp only [cartAdd, hfound]
    have : bumpQty pid q row = { row with quantity := row.quantity + q } := by
      simp [bumpQty, hrow]
    exact this ▸ List.mem_map_of_mem (bumpQty pid q) hmem
  · have := lineQty_cartAdd s pid pid q hd
    simpa using this
  · simp [cartAdd, hfound]
  · simp [cartAdd, hnone]
  · intro c hc
    exact Nat.ne_of_lt (hfresh c hc)
  · simp [cartAdd, hnone]
  · show (cartAdd (cartAdd emptyCart pid 2).1 pid 3).1.lines = _
    have h1 : (cartAdd emptyCart pid 2).1 =
        { lines := [{ id := 1, product_id := pid, quantity := 2 }], nextId := 2 } := by
      simp [cartAdd, findLine, emptyCart]
    rw [h1]
    simp [cartAdd, findLine, bumpQty]

/-- C1 witness: the general theorem applied to a cart holding one line for
product 7 with quantity 2 (for the found branch) and to the empty cart (for
the insert branch). -/
theorem C1_witness :
    (runOps emptyCart [CartOp.add 7 2, CartOp.add 7 3]).lines =
      [{ id := 1, product_id := 7, quantity := 5 }] :=
  (C1_addOrIncrement_consolidates
    { lines := [{ id := 1, product_id := 7, quantity := 2 }], nextId := 2 }
    emptyCart 7 3 { id := 1, product_id := 7, quantity := 2 }
    (by simp [DistinctProducts]) (by decide) (by decide)
    (by intro c hc; cases hc)).2.2

/-- C2 counterexample: product id 999 belongs to no seeded product, yet
POST /cart with product_id 999 succeeds and creates a cart line for it — the
route never consults the catalog, so no ProductNotFound failure and no
unchanged store. -/
theorem C2_counterexample :
    (∀ p ∈ seedProducts, p.id ≠ 999) ∧
    (cartAdd emptyCart 999 1).1.lines =
      [{ id := 1, product_id := 999, quantity := 1 }] ∧
    (cartAdd emptyCart 999 1).2.2 = "Added to cart" := by
  refine ⟨by decide, by decide, by decide⟩

/-- C2 amended: AddOrIncrement performs no catalog lookup at all: for any
catalog `cat`, any product id absent from it, and any cart with no line for
that id, POST /cart still mutates the store — it appends a new CartLine for
the unknown product — and reports the success message. -/
theorem C2_no_product_check (cat : List Product) (s : CartStore) (pid : Nat)
    (q : Int) (hmiss : ∀ p ∈ cat, p.id ≠ pid) (hnone : findLine s pid = none) :
    (cartAdd s pid q).1.lines =
      s.lines ++ [{ id := s.nextId, product_id := pid, quantity := q }] ∧
    (cartAdd s pid q).1 ≠ s ∧
    (cartAdd s pid q).2.2 = "Added to cart" := by
  refine ⟨by simp [cartAdd, hnone], ?_, by simp [cartAdd, hnone]⟩
  intro h
  have hlen := congrArg (fun u => u.lines.length) h
  simp [cartAdd, hnone] at hlen

/-- C2 witness: the amended theorem at the seeded catalog, the empty cart and
the unknown product id 999. -/
theorem C2_witness :
    (cartAdd emptyCart 999 1).1 ≠ emptyCart :=
  (C2_no_product_check seedProducts emptyCart 999 1 (by decide) (by decide)).2.1

/-- C3 counterexample: quantity −5 ≤ 0 is accepted by POST /cart (a line with
quantity −5 is created, success reported) and quantity 0 ≤ 0 is accepted by
PUT /cart/1 (the line's quantity becomes 0, success reported): no
InvalidQuantity rejection, and both calls mutate the store. -/
theorem C3_counterexample :
    ((-5 : Int) ≤ 0 ∧
      (cartAdd emptyCart 1 (-5)).1.lines =
        [{ id := 1, product_id := 1, quantity := -5 }] ∧
      (cartAdd emptyCart 1 (-5)).2.2 = "Added to cart") ∧
    ((0 : Int) ≤ 0 ∧
      (cartSet { lines := [{ id := 1, product_id := 1, quantity := 2 }], nextId := 2 } 1 0).1.lines =
        [{ id := 1, product_id := 1, quantity := 0 }] ∧
      (cartSet { lines := [{ id := 1, product_id := 1, quantity := 2 }], nextId := 2 } 1 0).2 =
        "Quantity updated") := by
  decide

/-- C3 amended: neither route validates quantity.  For any q ≤ 0: POST /cart
on a product with no existing line inserts a line carrying that quantity and
reports success, and PUT /cart/:id writes that quantity onto every line with
the addressed id and reports success — the mutations happen instead of an
InvalidQuantity rejection. -/
theorem C3_no_quantity_validation (s : CartStore) (pid lid : Nat) (q : Int)
    (hq : q ≤ 0) (hnone : findLine s pid = none) :
    (cartAdd s pid q).1.lines =
      s.lines ++ [{ id := s.nextId, product_id := pid, quantity := q }] ∧
    (cartAdd s pid q).2.2 = "Added to cart" ∧
    (∀ c ∈ (cartSet s lid q).1.lines, c.id = lid → c.quantity = q) ∧
    (cartSet s lid q).2 = "Quantity updated" := by
  refine ⟨by simp [cartAdd, hnone], by simp [cartAdd, hnone], ?_, rfl⟩
  intro c hc hcid
  rcases List.mem_map.mp hc with ⟨d, hd, rfl⟩
  have hdid : d.id = lid := by
    rw [setQty_id] at hcid
    exact hcid
  simp [setQty, hdid]

/-- C3 witness: the amended theorem at the empty cart, product 1, quantity −5. -/
theorem C3_witness :
    (cartAdd emptyCart 1 (-5)).1.lines =
      [{ id := 1, product_id := 1, quantity := -5 }] :=
  (C3_no_quantity_validation emptyCart 1 1 (-5) (by decide) (by decide)).1

/-- C4 counterexample: PUT /cart/1 against the empty cart — line id 1 does not
exist — reports the success message `Quantity updated` and leaves the store
unchanged, instead of failing with LineNotFound. -/
theorem C4_counterexample :
    (cartSet emptyCart 1 5).1 = emptyCart ∧
    (cartSet emptyCart 1 5).2 = "Quantity updated" := by
  decide

/-- C4 amended: SetQuantity (PUT /cart/:id) on a line id no CartLine carries
is a silent no-op reported as success, not a LineNotFound failure; and for any
store, the call overwrites the quantity of every line with the addressed id to
exactly q, repeating the call changes nothing further, and every row an
immediate View() shows for that line id carries exactly q. -/
theorem C4_set_quantity (s t : CartStore) (lid : Nat) (q : Int)
    (cat : List Product) (habsent : ∀ c ∈ t.lines, c.id ≠ lid) :
    ((cartSet t lid q).1 = t ∧ (cartSet t lid q).2 = "Quantity updated") ∧
    (∀ c ∈ (cartSet s lid q).1.lines, c.id = lid → c.quantity = q) ∧
    (cartSet (cartSet s lid q).1 lid q).1 = (cartSet s lid q).1 ∧
    (∀ r ∈ cartView (cartSet s lid q).1 cat, r.id = lid → r.quantity = q) := by
  have hset : ∀ c ∈ (cartSet s lid q).1.lines, c.id = lid → c.quantity = q := by
    intro c hc hcid
    rcases List.mem_map.mp hc with ⟨d, hd, rfl⟩
    have hdid : d.id = lid := by
      rw [setQty_id] at hcid
      exact hcid
    simp [setQty, hdid]
  refine ⟨⟨?_, rfl⟩, hset, ?_, ?_⟩
  · have hmapid : t.lines.map (setQty lid q) = t.lines := by
      conv_rhs => rw [← List.map_id t.lines]
      apply List.map_congr_left
      intro a ha
      simp [setQty, habsent a ha]
    simp [cartSet, hmapid]
  · have hmm : (s.lines.map (setQty lid q)).map (setQty lid q) =
        s.lines.map (setQty lid q) := by
      rw [List.map_map]
      apply List.map_congr_left
      intro a ha
      exact setQty_idem lid q a
    simp [cartSet, hmm]
  · intro r hr hrid
    unfold cartView at hr
    rcases List.mem_flatMap.mp hr with ⟨c, hc, hrc⟩
    rw [viewRows_quantity cat c r hrc]
    exact hset c hc (by rw [← viewRows_id cat c r hrc, hrid])

/-- C4 witness: the amended theorem at a one-line store for the overwrite part
and the empty cart for the missing-line part. -/
theorem C4_witness :
    (cartSet emptyCart 1 9).1 = emptyCart :=
  (C4_set_quantity { lines := [{ id := 1, product_id := 2, quantity := 4 }], nextId := 2 }
    emptyCart 1 9 seedProducts (by intro c hc; cases hc)).1.1

/-- C5: Remove (DELETE /cart/:id) is idempotent: the first call reports
success, the second call returns the very same store and the same success
message, and after the first call no CartLine with the addressed id remains. -/
theorem C5_remove_idempotent (s : CartStore) (lid : Nat) :
    (cartRemove s lid).2 = "Item removed" ∧
    cartRemove (cartRemove s lid).1 lid = ((cartRemove s lid).1, "Item removed") ∧
    ∀ c ∈ (cartRemove s lid).1.lines, c.id ≠ lid := by
  refine ⟨rfl, ?_, ?_⟩
  · have hff : (s.lines.filter (fun c => c.id ≠ lid)).filter (fun c => c.id ≠ lid) =
        s.lines.filter (fun c => c.id ≠ lid) := by
      induction s.lines with
      | nil => rfl
      | cons a u ih =>
          by_cases h : a.id = lid <;> simp [List.filter_cons, h, ih]
    simp [cartRemove, hff]
  · intro c hc
    simp only [cartRemove] at hc
    have := List.of_mem_filter hc
    simpa using this

/-- C6: with no CartLines in the store, GET /cart returns the empty list (the
route's only non-error output) and the frontend total accumulator over that
response is 0, for every catalog. -/
theorem C6_empty_view (cat : List Product) (n : Nat) :
    cartView { lines := [], nextId := n } cat = [] ∧
    cartTotal (cartView { lines := [], nextId := n } cat) = 0 :=
  ⟨rfl, rfl⟩

/-- C5 witness: removing line 1 twice from a two-line cart — the second call
returns the first call's store and the success message. -/
theorem C5_witness :
    ((2 : Nat) ≠ 1) ∧
    cartRemove (cartRemove { lines := [{ id := 1, product_id := 1, quantity := 2 },
        { id := 2, product_id := 3, quantity := 4 }], nextId := 3 } 1).1 1 =
      ((cartRemove { lines := [{ id := 1, product_id := 1, quantity := 2 },
        { id := 2, product_id := 3, quantity := 4 }], nextId := 3 } 1).1, "Item removed") := by
  constructor
  · exact (C5_remove_idempotent { lines := [{ id := 1, product_id := 1, quantity := 2 },
        { id := 2, product_id := 3, quantity := 4 }], nextId := 3 } 1).2.2
      { id := 2, product_id := 3, quantity := 4 } (by decide)
  · exact (C5_remove_idempotent { lines := [{ id := 1, product_id := 1, quantity := 2 },
        { id := 2, product_id := 3, quantity := 4 }], nextId := 3 } 1).2.1

/-- C8: after any sequence of sequential operations from the empty cart, at
most one CartLine exists per distinct product_id (`ops2`, `pid` range over all
sequences and products); and for a product `p` no SetQuantity/Remove of the
sequence `ops` touches, the quantity the final store holds for `p` equals the
sum of all AddOrIncrement increments applied to `p`. -/
theorem C8_sequential_invariant (p pid : Nat) (ops ops2 : List CartOp)
    (hav : SetRemoveAvoid p emptyCart ops) :
    ((runOps emptyCart ops2).lines.filter (fun c => c.product_id = pid)).length ≤ 1 ∧
    lineQty (runOps emptyCart ops) p = addsTo p ops := by
  constructor
  · exact count_le_one_of_pairwise _ (distinct_runOps ops2 emptyCart distinct_emptyCart) pid
  · have h := lineQty_runOps p ops emptyCart distinct_emptyCart hav
    simpa [lineQty, lineQtys, emptyCart] using h

/-- C8 witness: the invariant theorem at the two-add sequence for product 1. -/
theorem C8_witness :
    lineQty (runOps emptyCart [CartOp.add 1 2, CartOp.add 1 3]) 1 =
      addsTo 1 [CartOp.add 1 2, CartOp.add 1 3] :=
  (C8_sequential_invariant 1 1 [CartOp.add 1 2, CartOp.add 1 3]
    [CartOp.add 1 2, CartOp.add 1 3]
    (by exact ⟨trivial, trivial, trivial⟩)).2

/-- C9 counterexample: interleaving the read and write phases of two
concurrent POST /cart requests for product 1 as read₁ read₂ write₁ write₂
(both reads against the empty cart, both observing no line) leaves two
CartLines for product 1 — not the exactly-one line the claim asserts for
concurrent execution. -/
theorem C9_counterexample :
    ((addWrite (addWrite emptyCart 1 2 (addRead emptyCart 1)) 1 3
        (addRead emptyCart 1)).lines.filter (fun c => c.product_id = 1)).length = 2 := by
  decide

/-- C9 amended: the unguarded read-then-write upsert is racy: the interleaving
in which both requests read before either writes makes both observe the line
absent and both insert, leaving two CartLines for the product.  The claimed
property holds only sequentially: a sequence of AddOrIncrement requests
handled one after another yields held quantity equal to the sum of the
increments and at most one line per product. -/
theorem C9_race (p : Nat) (q1 q2 : Int) (ops : List CartOp)
    (hadds : ∀ op ∈ ops, IsAdd op) :
    (addWrite (addWrite emptyCart p q1 (addRead emptyCart p)) p q2
        (addRead emptyCart p)).lines =
      [{ id := 1, product_id := p, quantity := q1 },
       { id := 2, product_id := p, quantity := q2 }] ∧
    lineQty (runOps emptyCart ops) p = addsTo p ops ∧
    ((runOps emptyCart ops).lines.filter (fun c => c.product_id = p)).length ≤ 1 := by
  refine ⟨rfl, ?_, ?_⟩
  · have h := lineQty_runOps p ops emptyCart distinct_emptyCart
      (setRemoveAvoid_of_adds p ops emptyCart hadds)
    simpa [lineQty, lineQtys, emptyCart] using h
  · exact count_le_one_of_pairwise _ (distinct_runOps ops emptyCart distinct_emptyCart) p

/-- C9 witness: the race theorem at product 5, increments 4 and 7, and the
one-add sequence. -/
theorem C9_witness :
    lineQty (runOps emptyCart [CartOp.add 5 4]) 5 = addsTo 5 [CartOp.add 5 4] :=
  (C9_race 5 4 7 [CartOp.add 5 4] (by simp [IsAdd])).2.1

/-- C10: GET /cart silently omits orphaned CartLines: the response equals the
response computed after deleting every orphaned line from the store (no error,
no DataIntegrityError is ever produced for them); in a store with
pairwise-distinct row ids, an orphaned line `c` contributes no response row at
all; and `c` itself remains among the store's lines. -/
theorem C10_view_drops_orphans (s : CartStore) (cat : List Product)
    (c : CartLine) (hc : c ∈ s.lines)
    (hids : s.lines.Pairwise (fun a b => a.id ≠ b.id))
    (horph : ∀ p ∈ cat, p.id ≠ c.product_id) :
    cartView s cat =
      cartView
        { lines := s.lines.filter (fun l => cat.any (fun p => p.id = l.product_id)),
          nextId := s.nextId } cat ∧
    (∀ r ∈ cartView s cat, r.id ≠ c.id) ∧
    c ∈ s.lines := by
  refine ⟨cartView_filter_orphans s cat, ?_, hc⟩
  intro r hr hrid
  unfold cartView at hr
  rcases List.mem_flatMap.mp hr with ⟨c2, hc2, hrc2⟩
  have hid2 : r.id = c2.id := viewRows_id cat c2 r hrc2
  by_cases heq : c2 = c
  · subst heq
    rw [viewRows_eq_nil cat c2 horph] at hrc2
    cases hrc2
  · have hsym : Symmetric (fun a b : CartLine => a.id ≠ b.id) :=
      fun a b h => Ne.symm h
    exact (List.Pairwise.forall hsym hids hc2 hc heq) (by rw [← hid2]; exact hrid)

/-- C10 witness: a store holding the single orphaned line (id 1, product 999,
qty 2) against the seeded catalog — the view equals the view of the
orphan-free store. -/
theorem C10_witness :
    cartView { lines := [{ id := 1, product_id := 999, quantity := 2 }], nextId := 2 }
        seedProducts =
      cartView { lines := List.filter (fun l => seedProducts.any (fun p => p.id = l.product_id)) [{ id := 1, product_id := 999, quantity := 2 }], nextId := 2 } seedProducts :=
  (C10_view_drops_orphans
    { lines := [{ id := 1, product_id := 999, quantity := 2 }], nextId := 2 }
    seedProducts { id := 1, product_id := 999, quantity := 2 }
    (by simp) (by simp) (by decide)).1
